import Mathlib

/-!
Verification of the EPA1361 multi-model notebook and its predator-prey
reference model.

The repository's own code (the notebook
`assignment 3 - multimodel_assignment.ipynb`) declares four uncertainty
ranges, three time-series outcomes, instantiates a native Python model
adapter (`py_model`, wrapping the `PredPrey` function imported from
`model.pred_prey`) and a PySD system-dynamics adapter (`pysd_model`), and
invokes `perform_experiments([pysd_model], 50, uncertainty_sampling=LHS)`.

The `model/pred_prey.py` file itself is not part of the provided sources,
so the Population Dynamics Integrator is modelled from the specification:
explicit Euler integration of the Lotka-Volterra pair with validation of
rates, step size and divisibility, returning three equal-length sequences.
Real numbers of the source are embedded as rationals so every definition
is executable.
-/

/-- Modelled from the spec: the Simulation Parameters record of the
Population Dynamics Integrator (the argument list of the missing
`model/pred_prey.py::PredPrey`): four rate parameters, two initial
populations, a final time and a time step, the latter two defaulting to
365 and 0.25 as fixed by the course specification. -/
structure Params where
  prey_birth_rate : ℚ
  predation_rate : ℚ
  predator_efficiency : ℚ
  predator_loss_rate : ℚ
  initial_prey : ℚ
  initial_predators : ℚ
  final_time : ℚ := 365
  dt : ℚ := 1/4
deriving DecidableEq, Repr

/-- Modelled from the spec: the InvalidParameter error condition of the
integrator. -/
inductive IntegratorError where
  | InvalidParameter
deriving DecidableEq, Repr

/-- Modelled from the spec: prey derivative
dP/dt = prey_birth_rate * P - predation_rate * P * Q. -/
def dPdt (p : Params) (P Q : ℚ) : ℚ :=
  p.prey_birth_rate * P - p.predation_rate * P * Q

/-- Modelled from the spec: predator derivative
dQ/dt = predator_efficiency * predation_rate * P * Q - predator_loss_rate * Q. -/
def dQdt (p : Params) (P Q : ℚ) : ℚ :=
  p.predator_efficiency * p.predation_rate * P * Q - p.predator_loss_rate * Q

/-- Modelled from the spec: one explicit Euler step. The derivative pair is
computed from the current (P, Q), then P and Q are each updated by adding
derivative times step. -/
def eulerStep (p : Params) (st : ℚ × ℚ) : ℚ × ℚ :=
  (st.1 + dPdt p st.1 st.2 * p.dt, st.2 + dQdt p st.1 st.2 * p.dt)

/-- Modelled from the spec: the (prey, predator) state after `k` Euler
steps, starting from the initial populations. -/
def state (p : Params) : ℕ → ℚ × ℚ
  | 0 => (p.initial_prey, p.initial_predators)
  | k + 1 => eulerStep p (state p k)

/-- Modelled from the spec: the number of integration steps,
floor(final_time / step). -/
def nSteps (p : Params) : ℕ :=
  (p.final_time / p.dt).floor.toNat

/-- Modelled from the spec: the validity condition checked before any
integration step executes. The run fails with InvalidParameter when any
rate is negative, when the step size is non-positive, or when the step
size does not evenly divide the final time (a rational is an integer
exactly when its reduced denominator is 1). -/
def validParams (p : Params) : Prop :=
  0 ≤ p.prey_birth_rate ∧ 0 ≤ p.predation_rate ∧ 0 ≤ p.predator_efficiency ∧
    0 ≤ p.predator_loss_rate ∧ 0 < p.dt ∧ (p.final_time / p.dt).den = 1

instance : DecidablePred validParams := fun p => by
  unfold validParams; infer_instance

/-- Modelled from the spec: the Trajectory produced by one run: three
equal-length ordered sequences of numbers, elapsed time, prey count,
predator count. -/
structure Trajectory where
  time : List ℚ
  prey : List ℚ
  predators : List ℚ
deriving DecidableEq, Repr

/-- Modelled from the spec: the recorded history of a run, the triple
(k * dt, P_k, Q_k) for k = 0 .. nSteps. The first recorded triple is
(0, P0, Q0). -/
def mkTrajectory (p : Params) : Trajectory where
  time := (List.range (nSteps p + 1)).map fun (k : ℕ) => (k : ℚ) * p.dt
  prey := (List.range (nSteps p + 1)).map fun (k : ℕ) => (state p k).1
  predators := (List.range (nSteps p + 1)).map fun (k : ℕ) => (state p k).2

/-- Modelled from the spec: the Population Dynamics Integrator
(`model/pred_prey.py::PredPrey`): validate the parameters, then perform
the linear forward sweep and return the full history; on invalid input
fail with InvalidParameter before any integration step executes. -/
def PredPrey (p : Params) : Except IntegratorError Trajectory :=
  if validParams p then .ok (mkTrajectory p) else .error .InvalidParameter

/-- Running a batch of parameter records in sequence: each invocation only
reads its own record and produces its own fresh output. -/
def runBatch (ps : List Params) : List (Except IntegratorError Trajectory) :=
  ps.map PredPrey

-- Notebook glue (from the source: the notebook's declared uncertainties,
-- outcomes, model objects and experiment invocation).

/-- A RealParameter declaration of the notebook: a name with a lower and
an upper bound. -/
structure RealParameter where
  name : String
  lower : ℚ
  upper : ℚ
deriving DecidableEq, Repr

/-- The four uncertainty declarations of the notebook. -/
def uncertainties : List RealParameter :=
  [⟨"prey_birth_rate", 0.015, 0.035⟩,
   ⟨"predation_rate", 0.0005, 0.003⟩,
   ⟨"predator_efficiency", 0.001, 0.004⟩,
   ⟨"predator_loss_rate", 0.04, 0.08⟩]

/-- The three TimeSeriesOutcome names declared in the notebook. -/
def outcomeNames : List String := ["time", "predators", "prey"]

/-- A model object of the notebook: a name together with the assigned
uncertainties and outcomes. -/
structure NotebookModel where
  name : String
  uncertainties : List RealParameter
  outcomes : List String
deriving DecidableEq, Repr

/-- The native Python model adapter `py_model = Model('Python',
function=PredPrey)` with the shared uncertainties and outcomes. -/
def py_model : NotebookModel :=
  ⟨"Python", uncertainties, outcomeNames⟩

/-- The system-dynamics adapter `pysd_model = PysdModel('pysd',
mdl_file="model/PredPrey.mdl")` with the shared uncertainties and
outcomes. -/
def pysd_model : NotebookModel :=
  ⟨"pysd", uncertainties, outcomeNames⟩

/-- The model objects the notebook instantiates. -/
def instantiatedModels : List NotebookModel := [py_model, pysd_model]

/-- The model list the notebook passes to `perform_experiments`:
`perform_experiments([pysd_model], nr_experiments, ...)`. -/
def performedModels : List NotebookModel := [pysd_model]

/-- The notebook's `nr_experiments = 50`. -/
def nr_experiments : ℕ := 50

-- Basic lemmas about the integrator.

lemma PredPrey_ok_of_valid (p : Params) (h : validParams p) :
    PredPrey p = .ok (mkTrajectory p) := by
  simp [PredPrey, h]

lemma PredPrey_error_of_not_valid (p : Params) (h : ¬ validParams p) :
    PredPrey p = .error .InvalidParameter := by
  simp [PredPrey, h]

lemma PredPrey_ok_iff (p : Params) (tr : Trajectory) :
    PredPrey p = .ok tr ↔ validParams p ∧ tr = mkTrajectory p := by
  unfold PredPrey
  split
  next h => simp [eq_comm, h]
  next h => simp [h]

lemma getD_map_range (f : ℕ → ℚ) {n k : ℕ} (h : k < n) :
    (((List.range n).map f).getD k 0) = f k := by
  rw [List.getD_eq_getElem?_getD, List.getElem?_map, List.getElem?_range h]
  rfl

lemma mkTrajectory_time_length (p : Params) :
    (mkTrajectory p).time.length = nSteps p + 1 := by
  simp [mkTrajectory]

lemma mkTrajectory_prey_length (p : Params) :
    (mkTrajectory p).prey.length = nSteps p + 1 := by
  simp [mkTrajectory]

lemma mkTrajectory_predators_length (p : Params) :
    (mkTrajectory p).predators.length = nSteps p + 1 := by
  simp [mkTrajectory]

lemma mkTrajectory_time_getD (p : Params) {k : ℕ} (h : k < nSteps p + 1) :
    (mkTrajectory p).time.getD k 0 = (k : ℚ) * p.dt := by
  simpa [mkTrajectory] using getD_map_range (fun k => (k : ℚ) * p.dt) h

lemma mkTrajectory_prey_getD (p : Params) {k : ℕ} (h : k < nSteps p + 1) :
    (mkTrajectory p).prey.getD k 0 = (state p k).1 := by
  simpa [mkTrajectory] using getD_map_range (fun k => (state p k).1) h

lemma mkTrajectory_predators_getD (p : Params) {k : ℕ} (h : k < nSteps p + 1) :
    (mkTrajectory p).predators.getD k 0 = (state p k).2 := by
  simpa [mkTrajectory] using getD_map_range (fun k => (state p k).2) h

-- Concrete parameter records used by the witnesses.

/-- A small valid parameter record: unit rates and a single unit step. -/
def pTiny : Params :=
  { prey_birth_rate := 1, predation_rate := 0, predator_efficiency := 0,
    predator_loss_rate := 0, initial_prey := 1, initial_predators := 1,
    final_time := 1, dt := 1 }

/-- The concrete record of the spec's determinism property:
prey_birth_rate 0.025, predation_rate 0.001, predator_efficiency 0.002,
predator_loss_rate 0.05, P0 = 50, Q0 = 20, with the default final time and
step. -/
def pDefault : Params :=
  { prey_birth_rate := 0.025, predation_rate := 0.001,
    predator_efficiency := 0.002, predator_loss_rate := 0.05,
    initial_prey := 50, initial_predators := 20 }

/-- A record with a negative predator_loss_rate. -/
def pNegLoss : Params :=
  { pDefault with predator_loss_rate := -0.05 }

/-- A record with predation_rate and predator_efficiency both zero. -/
def pNoPredation : Params :=
  { pDefault with predation_rate := 0, predator_efficiency := 0 }

/-- A record whose step size equals its final time. -/
def pOneStep : Params :=
  { pDefault with dt := 365 }

lemma validParams_pTiny : validParams pTiny := by
  unfold validParams pTiny
  norm_num

lemma validParams_pDefault : validParams pDefault := by
  unfold validParams pDefault
  norm_num

lemma validParams_pNoPredation : validParams pNoPredation := by
  unfold validParams pNoPredation pDefault
  norm_num

lemma validParams_pOneStep : validParams pOneStep := by
  unfold validParams pOneStep pDefault
  norm_num

/-- C1: the Population Dynamics Integrator evolves prey P and predator Q
by explicit Euler steps of the Lotka-Volterra pair: the first recorded
triple is (0, P0, Q0), and for every recorded step the next prey and
predator values are the current values plus the derivative pair
(dP/dt = prey_birth_rate*P - predation_rate*P*Q,
dQ/dt = predator_efficiency*predation_rate*P*Q - predator_loss_rate*Q)
evaluated at the current (P, Q) times the step, while time advances by the
step. -/
theorem euler_step_structure (p : Params) (tr : Trajectory)
    (h : PredPrey p = .ok tr) :
    tr.time.getD 0 0 = 0 ∧ tr.prey.getD 0 0 = p.initial_prey ∧
    tr.predators.getD 0 0 = p.initial_predators ∧
    ∀ k : ℕ, k + 1 < tr.time.length →
      tr.prey.getD (k + 1) 0 =
        tr.prey.getD k 0 +
          dPdt p (tr.prey.getD k 0) (tr.predators.getD k 0) * p.dt ∧
      tr.predators.getD (k + 1) 0 =
        tr.predators.getD k 0 +
          dQdt p (tr.prey.getD k 0) (tr.predators.getD k 0) * p.dt ∧
      tr.time.getD (k + 1) 0 = tr.time.getD k 0 + p.dt := by
  rcases (PredPrey_ok_iff p tr).mp h with ⟨hv, rfl⟩
  refine ⟨?_, ?_, ?_, ?_⟩
  · rw [mkTrajectory_time_getD p (Nat.succ_pos _)]
    simp
  · rw [mkTrajectory_prey_getD p (Nat.succ_pos _)]
    rfl
  · rw [mkTrajectory_predators_getD p (Nat.succ_pos _)]
    rfl
  · intro k hk
    rw [mkTrajectory_time_length] at hk
    have hk' : k < nSteps p + 1 := Nat.lt_of_succ_lt hk
    rw [mkTrajectory_prey_getD p hk, mkTrajectory_prey_getD p hk',
      mkTrajectory_predators_getD p hk, mkTrajectory_predators_getD p hk',
      mkTrajectory_time_getD p hk, mkTrajectory_time_getD p hk']
    refine ⟨?_, ?_, ?_⟩
    · simp [state, eulerStep]
    · simp [state, eulerStep]
    · push_cast
      ring

/-- C1 witness: the step structure evaluated on the concrete record
pTiny. -/
theorem euler_step_structure_witness :
    (mkTrajectory pTiny).time.getD 0 0 = 0 ∧
    (mkTrajectory pTiny).prey.getD 0 0 = pTiny.initial_prey ∧
    (mkTrajectory pTiny).predators.getD 0 0 = pTiny.initial_predators ∧
    ∀ k : ℕ, k + 1 < (mkTrajectory pTiny).time.length →
      (mkTrajectory pTiny).prey.getD (k + 1) 0 =
        (mkTrajectory pTiny).prey.getD k 0 +
          dPdt pTiny ((mkTrajectory pTiny).prey.getD k 0)
            ((mkTrajectory pTiny).predators.getD k 0) * pTiny.dt ∧
      (mkTrajectory pTiny).predators.getD (k + 1) 0 =
        (mkTrajectory pTiny).predators.getD k 0 +
          dQdt pTiny ((mkTrajectory pTiny).prey.getD k 0)
            ((mkTrajectory pTiny).predators.getD k 0) * pTiny.dt ∧
      (mkTrajectory pTiny).time.getD (k + 1) 0 =
        (mkTrajectory pTiny).time.getD k 0 + pTiny.dt :=
  euler_step_structure pTiny (mkTrajectory pTiny)
    (PredPrey_ok_of_valid pTiny validParams_pTiny)

/-- C2: for every valid parameter record run with the default final time
365 and step 0.25, the integrator returns three sequences of equal length
1461, and the time sequence is 0, 0.25, 0.5, ..., 365. -/
theorem default_run_shape (p : Params) (tr : Trajectory)
    (hf : p.final_time = 365) (hd : p.dt = 1/4)
    (h : PredPrey p = .ok tr) :
    tr.time.length = 1461 ∧ tr.prey.length = 1461 ∧
    tr.predators.length = 1461 ∧
    tr.time.getD 0 0 = 0 ∧ tr.time.getD 1460 0 = 365 ∧
    ∀ k : ℕ, k < 1461 → tr.time.getD k 0 = (k : ℚ) * (1/4) := by
  rcases (PredPrey_ok_iff p tr).mp h with ⟨hv, rfl⟩
  have hn : nSteps p = 1460 := by
    rw [nSteps, hf, hd]
    norm_num [Rat.floor]
    rfl
  refine ⟨?_, ?_, ?_, ?_, ?_, ?_⟩
  · rw [mkTrajectory_time_length, hn]
  · rw [mkTrajectory_prey_length, hn]
  · rw [mkTrajectory_predators_length, hn]
  · rw [mkTrajectory_time_getD p (by omega : 0 < nSteps p + 1)]
    simp
  · rw [mkTrajectory_time_getD p (by omega : 1460 < nSteps p + 1), hd]
    norm_num
  · intro k hk
    rw [mkTrajectory_time_getD p (by omega : k < nSteps p + 1), hd]

/-- C2 witness: the default-run shape evaluated on the concrete record
pDefault. -/
theorem default_run_shape_witness :
    (mkTrajectory pDefault).time.length = 1461 ∧
    (mkTrajectory pDefault).prey.length = 1461 ∧
    (mkTrajectory pDefault).predators.length = 1461 ∧
    (mkTrajectory pDefault).time.getD 0 0 = 0 ∧
    (mkTrajectory pDefault).time.getD 1460 0 = 365 ∧
    ∀ k : ℕ, k < 1461 →
      (mkTrajectory pDefault).time.getD k 0 = (k : ℚ) * (1/4) :=
  default_run_shape pDefault (mkTrajectory pDefault) rfl rfl
    (PredPrey_ok_of_valid pDefault validParams_pDefault)

/-- C3: the integrator fails with InvalidParameter when any rate is
negative, when the step size is non-positive, or when the step size does
not evenly divide the final time, and in that case it never returns an
output trajectory. -/
theorem invalid_params_reject (p : Params)
    (h : p.prey_birth_rate < 0 ∨ p.predation_rate < 0 ∨
      p.predator_efficiency < 0 ∨ p.predator_loss_rate < 0 ∨
      p.dt ≤ 0 ∨ (p.final_time / p.dt).den ≠ 1) :
    PredPrey p = .error .InvalidParameter ∧
    ∀ tr : Trajectory, PredPrey p ≠ .ok tr := by
  have hnv : ¬ validParams p := by
    rintro ⟨h1, h2, h3, h4, h5, h6⟩
    rcases h with h | h | h | h | h | h
    · exact absurd h1 (not_le.mpr h)
    · exact absurd h2 (not_le.mpr h)
    · exact absurd h3 (not_le.mpr h)
    · exact absurd h4 (not_le.mpr h)
    · exact absurd h5 (not_lt.mpr h)
    · exact h h6
  refine ⟨PredPrey_error_of_not_valid p hnv, ?_⟩
  intro tr hok
  exact hnv ((PredPrey_ok_iff p tr).mp hok).1

/-- C3 witness: the rejection evaluated on the concrete record pNegLoss,
whose predator_loss_rate is negative. -/
theorem invalid_params_reject_witness :
    PredPrey pNegLoss = .error .InvalidParameter ∧
    ∀ tr : Trajectory, PredPrey pNegLoss ≠ .ok tr :=
  invalid_params_reject pNegLoss
    (by right; right; right; left; norm_num [pNegLoss, pDefault])

/-- C4: the integrator is deterministic: two runs with identical inputs
produce identical output sequences; the embedding is a pure function of
the parameter record, with no randomness and no I/O. -/
theorem deterministic_integrator (p q : Params) (h : p = q) :
    PredPrey p = PredPrey q := by
  rw [h]

/-- C4 witness: determinism at the spec's concrete record pDefault. -/
theorem deterministic_integrator_witness :
    PredPrey pDefault = PredPrey pDefault :=
  deterministic_integrator pDefault pDefault rfl

-- Dynamics lemmas for the zero-predation scenario.

lemma state_fst_zero_predation (p : Params) (hpred : p.predation_rate = 0) :
    ∀ k : ℕ,
      (state p k).1 = p.initial_prey * (1 + p.prey_birth_rate * p.dt) ^ k
  | 0 => by simp [state]
  | (k + 1) => by
    simp only [state, eulerStep, dPdt, hpred]
    rw [state_fst_zero_predation p hpred k]
    ring

lemma state_snd_zero_efficiency (p : Params)
    (heff : p.predator_efficiency = 0) (k : ℕ) :
    (state p (k + 1)).2 =
      (state p k).2 * (1 - p.predator_loss_rate * p.dt) := by
  simp only [state, eulerStep, dQdt, heff]
  ring

lemma state_snd_nonneg (p : Params) (heff : p.predator_efficiency = 0)
    (hQ0 : 0 ≤ p.initial_predators)
    (hld : p.predator_loss_rate * p.dt ≤ 1) :
    ∀ k : ℕ, 0 ≤ (state p k).2
  | 0 => hQ0
  | (k + 1) => by
    rw [state_snd_zero_efficiency p heff k]
    exact mul_nonneg (state_snd_nonneg p heff hQ0 hld k) (by linarith)

lemma state_snd_decay (p : Params) (heff : p.predator_efficiency = 0)
    (hQ0 : 0 ≤ p.initial_predators)
    (hl : 0 ≤ p.predator_loss_rate * p.dt)
    (hld : p.predator_loss_rate * p.dt ≤ 1) (k : ℕ) :
    (state p (k + 1)).2 ≤ (state p k).2 := by
  have hQ := state_snd_nonneg p heff hQ0 hld k
  have hQl : 0 ≤ (state p k).2 * (p.predator_loss_rate * p.dt) :=
    mul_nonneg hQ hl
  rw [state_snd_zero_efficiency p heff k, mul_sub, mul_one]
  linarith

lemma geom_le_exp (P0 x : ℚ) (hP0 : 0 ≤ P0) (hx : 0 ≤ x) (k : ℕ) :
    ((P0 * (1 + x) ^ k : ℚ) : ℝ) ≤
      (P0 : ℝ) * Real.exp ((x : ℝ) * (k : ℝ)) := by
  have hx' : (0 : ℝ) ≤ (x : ℝ) := by exact_mod_cast hx
  have hbase : ((1 : ℝ) + (x : ℝ)) ≤ Real.exp (x : ℝ) := by
    have := Real.add_one_le_exp (x : ℝ)
    linarith
  have hpow : ((1 : ℝ) + (x : ℝ)) ^ k ≤ Real.exp (x : ℝ) ^ k :=
    pow_le_pow_left₀ (by linarith) hbase k
  have hexp : Real.exp (x : ℝ) ^ k = Real.exp ((x : ℝ) * (k : ℝ)) := by
    rw [← Real.exp_nat_mul]
    congr 1
    ring
  push_cast
  calc (P0 : ℝ) * ((1 : ℝ) + (x : ℝ)) ^ k
      ≤ (P0 : ℝ) * Real.exp (x : ℝ) ^ k :=
        mul_le_mul_of_nonneg_left hpow (by exact_mod_cast hP0)
    _ = (P0 : ℝ) * Real.exp ((x : ℝ) * (k : ℝ)) := by rw [hexp]

/-- C5: when predation_rate and predator_efficiency are both zero and the
remaining inputs are valid, the returned prey sequence grows purely
exponentially: it equals P0 * (1 + prey_birth_rate * dt)^k, the explicit
Euler discretisation of P0 * e^(prey_birth_rate * t), and is bounded above
by P0 * e^(prey_birth_rate * t) at every recorded time t = k * dt; the
returned predator sequence is non-increasing (pure decay). -/
theorem zero_predation_growth_decay (p : Params) (tr : Trajectory)
    (hpred : p.predation_rate = 0) (heff : p.predator_efficiency = 0)
    (hb : 0 ≤ p.prey_birth_rate) (hl : 0 ≤ p.predator_loss_rate)
    (hdt : 0 < p.dt) (hld : p.predator_loss_rate * p.dt ≤ 1)
    (hP0 : 0 ≤ p.initial_prey) (hQ0 : 0 ≤ p.initial_predators)
    (h : PredPrey p = .ok tr) :
    (∀ k : ℕ, k < tr.prey.length →
      tr.prey.getD k 0 =
        p.initial_prey * (1 + p.prey_birth_rate * p.dt) ^ k) ∧
    (∀ k : ℕ, k < tr.prey.length →
      ((tr.prey.getD k 0 : ℚ) : ℝ) ≤
        (p.initial_prey : ℝ) *
          Real.exp ((p.prey_birth_rate : ℝ) * ((p.dt : ℝ) * (k : ℝ)))) ∧
    (∀ k : ℕ, k + 1 < tr.predators.length →
      tr.predators.getD (k + 1) 0 ≤ tr.predators.getD k 0) := by
  rcases (PredPrey_ok_iff p tr).mp h with ⟨hv, rfl⟩
  refine ⟨?_, ?_, ?_⟩
  · intro k hk
    rw [mkTrajectory_prey_length] at hk
    rw [mkTrajectory_prey_getD p hk, state_fst_zero_predation p hpred k]
  · intro k hk
    rw [mkTrajectory_prey_length] at hk
    rw [mkTrajectory_prey_getD p hk, state_fst_zero_predation p hpred k]
    have harg : (p.prey_birth_rate : ℝ) * ((p.dt : ℝ) * (k : ℝ)) =
        ((p.prey_birth_rate * p.dt : ℚ) : ℝ) * (k : ℝ) := by
      push_cast
      ring
    rw [harg]
    exact geom_le_exp p.initial_prey (p.prey_birth_rate * p.dt) hP0
      (mul_nonneg hb hdt.le) k
  · intro k hk
    rw [mkTrajectory_predators_length] at hk
    rw [mkTrajectory_predators_getD p hk,
      mkTrajectory_predators_getD p (Nat.lt_of_succ_lt hk)]
    exact state_snd_decay p heff hQ0 (mul_nonneg hl hdt.le) hld k

/-- C5 witness: the growth and decay conclusions evaluated on the concrete
record pNoPredation. -/
theorem zero_predation_growth_decay_witness :
    (∀ k : ℕ, k < (mkTrajectory pNoPredation).prey.length →
      (mkTrajectory pNoPredation).prey.getD k 0 =
        pNoPredation.initial_prey *
          (1 + pNoPredation.prey_birth_rate * pNoPredation.dt) ^ k) ∧
    (∀ k : ℕ, k < (mkTrajectory pNoPredation).prey.length →
      (((mkTrajectory pNoPredation).prey.getD k 0 : ℚ) : ℝ) ≤
        (pNoPredation.initial_prey : ℝ) *
          Real.exp ((pNoPredation.prey_birth_rate : ℝ) *
            ((pNoPredation.dt : ℝ) * (k : ℝ)))) ∧
    (∀ k : ℕ, k + 1 < (mkTrajectory pNoPredation).predators.length →
      (mkTrajectory pNoPredation).predators.getD (k + 1) 0 ≤
        (mkTrajectory pNoPredation).predators.getD k 0) :=
  zero_predation_growth_decay pNoPredation (mkTrajectory pNoPredation)
    rfl rfl (by norm_num [pNoPredation, pDefault])
    (by norm_num [pNoPredation, pDefault])
    (by norm_num [pNoPredation, pDefault])
    (by norm_num [pNoPredation, pDefault])
    (by norm_num [pNoPredation, pDefault])
    (by norm_num [pNoPredation, pDefault])
    (PredPrey_ok_of_valid pNoPredation validParams_pNoPredation)

/-- C6: the integrator is idempotent and free of shared mutable state: in
a sequential batch the output recorded for a record is PredPrey of that
record alone, independent of any earlier invocations, and running the same
record twice yields the same output twice. -/
theorem batch_runs_independent (prior : List Params) (p : Params) :
    runBatch (prior ++ [p]) = runBatch prior ++ [PredPrey p] ∧
    runBatch [p, p] = [PredPrey p, PredPrey p] :=
  ⟨by simp [runBatch], rfl⟩

/-- C7: for every valid parameter record whose step size equals its final
time, the integrator returns sequences with exactly two points, at t = 0
and t = final_time. -/
theorem step_equal_final_two_points (p : Params) (tr : Trajectory)
    (hd : p.dt = p.final_time) (h : PredPrey p = .ok tr) :
    tr.time = [0, p.final_time] ∧ tr.time.length = 2 ∧
    tr.prey.length = 2 ∧ tr.predators.length = 2 := by
  rcases (PredPrey_ok_iff p tr).mp h with ⟨hv, rfl⟩
  obtain ⟨-, -, -, -, hdt, -⟩ := hv
  have hft : p.final_time ≠ 0 := by
    rw [← hd]
    exact ne_of_gt hdt
  have hone : p.final_time / p.dt = 1 := by
    rw [hd, div_self hft]
  have hn : nSteps p = 1 := by
    rw [nSteps, hone]
    rfl
  refine ⟨?_, ?_, ?_, ?_⟩
  · have hr : List.range (nSteps p + 1) = [0, 1] := by
      rw [hn]
      rfl
    show (List.range (nSteps p + 1)).map (fun (k : ℕ) => (k : ℚ) * p.dt) =
      [0, p.final_time]
    rw [hr]
    simp [hd]
  · rw [mkTrajectory_time_length, hn]
  · rw [mkTrajectory_prey_length, hn]
  · rw [mkTrajectory_predators_length, hn]

/-- C7 witness: the two-point boundary run evaluated on the concrete
record pOneStep, whose step size is 365 = final time. -/
theorem step_equal_final_two_points_witness :
    (mkTrajectory pOneStep).time = [0, pOneStep.final_time] ∧
    (mkTrajectory pOneStep).time.length = 2 ∧
    (mkTrajectory pOneStep).prey.length = 2 ∧
    (mkTrajectory pOneStep).predators.length = 2 :=
  step_equal_final_two_points pOneStep (mkTrajectory pOneStep) rfl
    (PredPrey_ok_of_valid pOneStep validParams_pOneStep)

/-- C8 counterexample: the experiment invocation does not run the design
across each of the instantiated models: the native Python model is among
the instantiated models but not among the models passed to
perform_experiments. -/
theorem python_model_left_out :
    ¬ ∀ m ∈ instantiatedModels, m ∈ performedModels := by
  intro h
  have hmem := h py_model (by simp [instantiatedModels])
  simp only [performedModels, List.mem_singleton, py_model, pysd_model,
    NotebookModel.mk.injEq] at hmem
  exact absurd hmem.1 (by decide)

/-- C8 (amended): the experiment invocation runs the shared design of 50
sampled parameter combinations over the pysd system-dynamics model only;
the native Python model is instantiated with the same uncertainties and
the same output variables but is not passed to the run. -/
theorem experiments_only_pysd :
    performedModels = [pysd_model] ∧ nr_experiments = 50 ∧
    py_model ∈ instantiatedModels ∧ pysd_model ∈ instantiatedModels ∧
    py_model.uncertainties = pysd_model.uncertainties ∧
    py_model.outcomes = pysd_model.outcomes :=
  ⟨rfl, rfl, by simp [instantiatedModels], by simp [instantiatedModels],
    rfl, rfl⟩

/-- C9: the four declared uncertainty parameters have exactly the valid
ranges stated in the data model: prey_birth_rate in [0.015, 0.035],
predation_rate in [0.0005, 0.003], predator_efficiency in [0.001, 0.004],
and predator_loss_rate in [0.04, 0.08] (as exact rationals). -/
theorem uncertainty_ranges :
    uncertainties.map (fun u => (u.name, u.lower, u.upper)) =
      [("prey_birth_rate", 3/200, 7/200),
       ("predation_rate", 1/2000, 3/1000),
       ("predator_efficiency", 1/1000, 1/250),
       ("predator_loss_rate", 1/25, 2/25)] := by
  norm_num [uncertainties]

/-- C10: the Python reference model adapter is constructed but never
included in the list passed to the experiment run: only the pysd
system-dynamics model appears there, so no trajectory from the Python
integrator is ever requested by this code. -/
theorem py_model_never_run :
    py_model ∈ instantiatedModels ∧ py_model ∉ performedModels ∧
    performedModels = [pysd_model] := by
  refine ⟨by simp [instantiatedModels], ?_, rfl⟩
  intro hmem
  simp only [performedModels, List.mem_singleton, py_model, pysd_model,
    NotebookModel.mk.injEq] at hmem
  exact absurd hmem.1 (by decide)
